import Mathlib

/-!
Verification of the websocket_chat server core (src/server/websocket_server.cpp)
and the entry points (src/client/websocket_client.cpp), as a shallow embedding.

Sessions are identified by natural numbers (standing for the distinct
`shared_ptr<Session>` values of the C++ code).  The server state carries the
`sessions_` set (the Registry), each session's `buffer_` contents, the ordered
list of `async_write` initiations on each session's stream (its outbound
initiation order), whether a session has completed its handshake, whether its
`async_read` is currently armed, the list of messages handed to the broadcast
section, and the `std::cerr` log.
-/

set_option autoImplicit false

/-- Classification of the `beast::error_code` tested in `Session::on_read`
(websocket_server.cpp lines 84-99): `closed` is `websocket::error::closed`
(a clean peer close), `err` is any other truthy error code, `ok` is success. -/
inductive ReadEc where
  | closed
  | err
  | ok
deriving DecidableEq, Repr

/-- Pointwise update of a function at one key. -/
def upd {α : Type} (f : Nat → α) (k : Nat) (v : α) : Nat → α :=
  fun n => if n = k then v else f n

/-- State of the server as visible to the handlers of websocket_server.cpp. -/
structure ServerState where
  /-- the `sessions_` set (`std::set<std::shared_ptr<Session>>`, line 131) -/
  registry : Finset Nat
  /-- each session's `buffer_` contents (line 25), as the string it holds -/
  buffers : Nat → String
  /-- messages whose `async_write` was initiated on each session's stream,
  in initiation order (line 110) -/
  outbox : Nat → List String
  /-- whether the session has completed its WebSocket handshake
  (reached the success branch of `on_accept`, line 62) -/
  handshaken : Nat → Bool
  /-- whether the session has an `async_read` outstanding (armed by
  `read_message`, line 76); a session whose handler returned without
  re-arming is terminated -/
  readArmed : Nat → Bool
  /-- the (origin, message) pairs handed to the broadcast section
  (lines 106-119), in order -/
  broadcastLog : List (Nat × String)
  /-- lines written to `std::cerr` -/
  errLog : List String

/-- The initial server state: no sessions, empty buffers, nothing sent. -/
def initState : ServerState where
  registry := ∅
  buffers := fun _ => ""
  outbox := fun _ => []
  handshaken := fun _ => false
  readArmed := fun _ => false
  broadcastLog := []
  errLog := []

/-- The registry insertion performed by `sessions_.insert(shared_from_this())`
(websocket_server.cpp line 66); `std::set::insert` is a no-op on a present key. -/
def registryJoin (r : Finset Nat) (s : Nat) : Finset Nat :=
  insert s r

/-- The registry removal performed by `sessions_.erase(shared_from_this())`
(websocket_server.cpp line 89); `std::set::erase` is a no-op on an absent key. -/
def registryLeave (r : Finset Nat) (s : Nat) : Finset Nat :=
  r.erase s

/-- `Session::on_accept` (websocket_server.cpp lines 56-72): on a handshake
error it prints to `std::cerr` and returns; on success it inserts the session
into `sessions_` under the mutex, logs the join, and arms the first read via
`read_message()`. -/
def Session.on_accept (st : ServerState) (sid : Nat) (ec : Bool) : ServerState :=
  if ec then
    { st with errLog := st.errLog ++ ["Accept error"] }
  else
    { st with
      registry := registryJoin st.registry sid
      handshaken := upd st.handshaken sid true
      readArmed := upd st.readArmed sid true }

/-- The broadcast section of `Session::on_read` (websocket_server.cpp lines
106-119): under `sessions_mutex_`, for every session in `sessions_` other than
`this`, initiate `async_write` of the message on that session's stream. -/
def broadcast (st : ServerState) (origin : Nat) (out : String) : ServerState :=
  { st with
    outbox := fun sid =>
      if sid ∈ st.registry ∧ sid ≠ origin then st.outbox sid ++ [out] else st.outbox sid
    broadcastLog := st.broadcastLog ++ [(origin, out)] }

/-- `Session::on_read` (websocket_server.cpp lines 84-124).  On
`websocket::error::closed` the session erases itself from `sessions_` and
returns (read loop not re-armed).  On any other error it prints to `std::cerr`
and returns (read loop not re-armed, `sessions_` untouched).  On success it
converts the whole buffer to a string, broadcasts it to every other session,
consumes the whole buffer, and re-arms the read via `read_message()`. -/
def Session.on_read (st : ServerState) (sid : Nat) (ec : ReadEc) : ServerState :=
  match ec with
  | ReadEc.closed =>
      { st with
        registry := registryLeave st.registry sid
        readArmed := upd st.readArmed sid false }
  | ReadEc.err =>
      { st with
        errLog := st.errLog ++ ["Read error"]
        readArmed := upd st.readArmed sid false }
  | ReadEc.ok =>
      let out := st.buffers sid
      let st1 := broadcast st sid out
      { st1 with
        buffers := upd st1.buffers sid ""
        readArmed := upd st1.readArmed sid true }

/-- The completion handler of the `async_write` initiated during broadcast
(websocket_server.cpp lines 112-116): on error it prints `Write error` to
`std::cerr`; in either case it does nothing else (no termination, no registry
change). -/
def on_write (st : ServerState) (ec : Bool) : ServerState :=
  if ec then { st with errLog := st.errLog ++ ["Write error"] } else st

/-- Arrival of one whole frame with the given payload on a session's stream:
`async_read` appends the frame into `buffer_` and then invokes
`Session::on_read` with a success code. -/
def deliverFrame (st : ServerState) (sid : Nat) (payload : String) : ServerState :=
  Session.on_read
    { st with buffers := upd st.buffers sid (st.buffers sid ++ payload) } sid ReadEc.ok

/-- Sequential arrival of a list of frames on one session's stream: the read
is re-armed only at the end of each `on_read`, so the handlers run in frame
order. -/
def processFrames (st : ServerState) (sid : Nat) (frames : List String) : ServerState :=
  frames.foldl (fun s p => deliverFrame s sid p) st

/-! Lock-event trace of the broadcast section, for the concurrency claims. -/

/-- Events on `sessions_mutex_` and the sends of the broadcast section:
acquiring the mutex, releasing it, initiating a send to one session, and
copying a membership snapshot (an event the spec describes; it never occurs
in the code's trace). -/
inductive LockEv where
  | acq
  | rel
  | sendInit (sid : Nat)
  | snapshotCopy
deriving DecidableEq, Repr

/-- The event trace of the broadcast section as the code performs it
(websocket_server.cpp lines 106-119): the `lock_guard` acquires
`sessions_mutex_`, the loop initiates one send per non-origin member of
`sessions_`, and the guard's destructor releases the mutex only after the loop
finishes.  The membership is passed as the list underlying the set. -/
def broadcastEvents (sessions : List Nat) (origin : Nat) : List LockEv :=
  [LockEv.acq] ++ (sessions.filter (fun s => s ≠ origin)).map LockEv.sendInit
    ++ [LockEv.rel]

/-- The event trace of a broadcast as the spec describes it (copy-then-release
snapshot): acquire the mutex, copy the membership snapshot, release, and only
then initiate the sends.  Written from the spec's words for comparison with
`broadcastEvents`, which is written from the code. -/
def broadcastEventsSpec (sessions : List Nat) (origin : Nat) : List LockEv :=
  [LockEv.acq, LockEv.snapshotCopy, LockEv.rel]
    ++ (sessions.filter (fun s => s ≠ origin)).map LockEv.sendInit

/-- Scans a trace tracking whether the mutex is held; true iff every
`sendInit` event occurs while the mutex is NOT held. -/
def sendsLockFree : List LockEv → Bool → Bool
  | [], _ => true
  | LockEv.acq :: t, _ => sendsLockFree t true
  | LockEv.rel :: t, _ => sendsLockFree t false
  | LockEv.sendInit _ :: t, held => !held && sendsLockFree t held
  | LockEv.snapshotCopy :: t, held => sendsLockFree t held

/-- Scans a trace tracking whether the mutex is held; true iff every
`sendInit` event occurs while the mutex IS held. -/
def sendsUnderLock : List LockEv → Bool → Bool
  | [], _ => true
  | LockEv.acq :: t, _ => sendsUnderLock t true
  | LockEv.rel :: t, _ => sendsUnderLock t false
  | LockEv.sendInit _ :: t, held => held && sendsUnderLock t held
  | LockEv.snapshotCopy :: t, held => sendsUnderLock t held

/-! The Listener (class Server) and the process entry points. -/

/-- State of the Listener (`class Server`, websocket_server.cpp lines
128-161): whether an `async_accept` is outstanding, how many Sessions have
been created and started, and the `std::cerr` log. -/
structure ListenerState where
  acceptPending : Bool
  sessionsStarted : Nat
  errLog : List String
deriving DecidableEq, Repr

/-- `Server::accept_connection` (websocket_server.cpp lines 149-160): arms
one `async_accept` on the acceptor. -/
def accept_connection (st : ListenerState) : ListenerState :=
  { st with acceptPending := true }

/-- The accept completion handler (websocket_server.cpp lines 151-159): on
success it creates a Session from the socket and calls `run()` on it; on
failure it prints `Accept error` to `std::cerr`; in BOTH branches it then
calls `accept_connection()` again. -/
def onAcceptComplete (st : ListenerState) (ec : Bool) : ListenerState :=
  accept_connection
    (if ec then
      { st with acceptPending := false, errLog := st.errLog ++ ["Accept error"] }
    else
      { st with acceptPending := false, sessionsStarted := st.sessionsStarted + 1 })

/-- The port the server's `main` binds the Listener to (websocket_server.cpp
lines 164-174): `int main()` declares no parameters, ignores the process
arguments entirely, and constructs `Server server(8080)` with the literal
port 8080. -/
def serverListenPort (argv : List String) : Nat :=
  let _ := argv
  8080

/-- The client's `main` argument handling (websocket_client.cpp lines
154-159): unless `argc == 3` it prints a usage line and returns
`EXIT_FAILURE`; otherwise it constructs the client from `argv[1]` (host) and
`argv[2]` (port). -/
def clientParseArgs (argv : List String) : Option (String × String) :=
  match argv with
  | [_prog, host, port] => some (host, port)
  | _ => none

/-! Helper lemmas shared by the claim theorems. -/

lemma broadcast_outbox_recipient {st : ServerState} {origin r : Nat} (out : String)
    (hr : r ∈ st.registry) (hne : r ≠ origin) :
    (broadcast st origin out).outbox r = st.outbox r ++ [out] := by
  show (if r ∈ st.registry ∧ r ≠ origin then st.outbox r ++ [out] else st.outbox r)
      = st.outbox r ++ [out]
  rw [if_pos ⟨hr, hne⟩]

lemma deliverFrame_registry (st : ServerState) (sid : Nat) (p : String) :
    (deliverFrame st sid p).registry = st.registry := rfl

lemma deliverFrame_buffers_self (st : ServerState) (sid : Nat) (p : String) :
    (deliverFrame st sid p).buffers sid = "" := by
  simp [deliverFrame, Session.on_read, upd]

lemma deliverFrame_outbox {st : ServerState} {sid r : Nat} (p : String)
    (hr : r ∈ st.registry) (hne : r ≠ sid) (hbuf : st.buffers sid = "") :
    (deliverFrame st sid p).outbox r = st.outbox r ++ [p] := by
  simp [deliverFrame, Session.on_read, broadcast, upd, hr, hne, hbuf]

lemma deliverFrame_broadcastLog {st : ServerState} {sid : Nat} (p : String)
    (hbuf : st.buffers sid = "") :
    (deliverFrame st sid p).broadcastLog = st.broadcastLog ++ [(sid, p)] := by
  simp [deliverFrame, Session.on_read, broadcast, upd, hbuf]

lemma processFrames_outbox (frames : List String) (sid r : Nat) (hne : r ≠ sid) :
    ∀ st : ServerState, r ∈ st.registry → st.buffers sid = "" →
      (processFrames st sid frames).outbox r = st.outbox r ++ frames := by
  induction frames with
  | nil => intro st _ _; simp [processFrames]
  | cons p rest ih =>
    intro st hr hbuf
    have hstep : processFrames st sid (p :: rest)
        = processFrames (deliverFrame st sid p) sid rest := rfl
    have hr2 : r ∈ (deliverFrame st sid p).registry := by
      rw [deliverFrame_registry]; exact hr
    rw [hstep, ih (deliverFrame st sid p) hr2 (deliverFrame_buffers_self st sid p),
      deliverFrame_outbox p hr hne hbuf]
    simp

lemma processFrames_log (frames : List String) (sid : Nat) :
    ∀ st : ServerState, st.buffers sid = "" →
      (processFrames st sid frames).broadcastLog
          = st.broadcastLog ++ frames.map (fun p => (sid, p)) ∧
      (processFrames st sid frames).buffers sid = "" := by
  induction frames with
  | nil => intro st hbuf; exact ⟨by simp [processFrames], hbuf⟩
  | cons p rest ih =>
    intro st hbuf
    have hstep : processFrames st sid (p :: rest)
        = processFrames (deliverFrame st sid p) sid rest := rfl
    obtain ⟨h1, h2⟩ := ih (deliverFrame st sid p) (deliverFrame_buffers_self st sid p)
    constructor
    · rw [hstep, h1, deliverFrame_broadcastLog p hbuf]; simp
    · rw [hstep]; exact h2

lemma sendsUnderLock_map_sendInit (l : List Nat) :
    sendsUnderLock (l.map LockEv.sendInit ++ [LockEv.rel]) true = true := by
  induction l with
  | nil => rfl
  | cons s rest ih => simpa [sendsUnderLock] using ih

/-! Claim theorems. -/

/-- C1 (counterexample): the claimed registry invariant fails on the code.
Start a session (id 0) whose handshake succeeds, then let its `async_read`
complete with a generic (non-`closed`) error.  `Session::on_read` only logs
and returns: the session's read loop has ended (it is terminated, never
re-armed), yet it is still a member of `sessions_`, so "in the set iff
handshaken and not terminated" is violated, and in particular a read error
does NOT remove the session from the set. -/
theorem C1_registry_invariant_counterexample :
    (Session.on_read (Session.on_accept initState 0 false) 0 ReadEc.err).handshaken 0
        = true ∧
    (Session.on_read (Session.on_accept initState 0 false) 0 ReadEc.err).readArmed 0
        = false ∧
    0 ∈ (Session.on_read (Session.on_accept initState 0 false) 0 ReadEc.err).registry ∧
    ¬ (0 ∈ (Session.on_read (Session.on_accept initState 0 false) 0 ReadEc.err).registry
        ↔ (Session.on_read (Session.on_accept initState 0 false) 0 ReadEc.err).handshaken 0
              = true
          ∧ (Session.on_read (Session.on_accept initState 0 false) 0 ReadEc.err).readArmed 0
              = true) := by
  decide

/-- C1 (amended): a successful handshake inserts the session into `sessions_`
and marks it handshaken; a clean peer close (`websocket::error::closed`)
erases it from `sessions_` and ends its read loop; any OTHER read error logs
to `std::cerr` and ends the read loop but leaves `sessions_` unchanged, so
the session stays in the set after such an error. -/
theorem C1_registry_membership_amended (st : ServerState) (sid : Nat) :
    (Session.on_accept st sid false).registry = insert sid st.registry ∧
    (Session.on_accept st sid false).handshaken sid = true ∧
    (Session.on_read st sid ReadEc.closed).registry = st.registry.erase sid ∧
    (Session.on_read st sid ReadEc.closed).readArmed sid = false ∧
    (Session.on_read st sid ReadEc.err).registry = st.registry ∧
    (Session.on_read st sid ReadEc.err).readArmed sid = false ∧
    (Session.on_read st sid ReadEc.err).errLog = st.errLog ++ ["Read error"] := by
  refine ⟨rfl, ?_, rfl, ?_, rfl, ?_, rfl⟩ <;>
    simp [Session.on_accept, Session.on_read, upd]

/-- C2 (counterexample): a failed send does NOT terminate the recipient nor
remove it from the registry.  Two sessions 0 and 1 complete their handshakes;
session 0 broadcasts "hello", initiating a write to session 1; that write
completes with an error.  The write handler only logs `Write error`: session
1 is still in `sessions_` and its read loop is still armed, contradicting the
claim that the failure triggers its Closing transition and removal. -/
theorem C2_send_failure_counterexample :
    (broadcast (Session.on_accept (Session.on_accept initState 0 false) 1 false) 0
        "hello").outbox 1 = ["hello"] ∧
    1 ∈ (on_write
          (broadcast (Session.on_accept (Session.on_accept initState 0 false) 1 false) 0
            "hello") true).registry ∧
    (on_write
        (broadcast (Session.on_accept (Session.on_accept initState 0 false) 1 false) 0
          "hello") true).readArmed 1 = true ∧
    (on_write
        (broadcast (Session.on_accept (Session.on_accept initState 0 false) 1 false) 0
          "hello") true).errLog = ["Write error"] := by
  decide

/-- C2 (amended): during fan-out a write is initiated to every registered
non-origin session unconditionally, so no recipient's failure can abort the
sends to the others; a failed write is caught in its own completion handler,
which appends `Write error` to the log and does nothing else — the registry,
every outbox, and every read loop are untouched, and in particular the failed
recipient is NOT terminated and NOT removed from the registry. -/
theorem C2_send_failure_amended (st : ServerState) (origin r : Nat) (out : String)
    (hr : r ∈ st.registry) (hne : r ≠ origin) :
    (broadcast st origin out).outbox r = st.outbox r ++ [out] ∧
    (on_write st true).errLog = st.errLog ++ ["Write error"] ∧
    (on_write st true).registry = st.registry ∧
    (on_write st true).outbox = st.outbox ∧
    (on_write st true).readArmed = st.readArmed ∧
    on_write st false = st := by
  exact ⟨broadcast_outbox_recipient out hr hne, rfl, rfl, rfl, rfl, rfl⟩

/-- C2 witness: the amended theorem applied at a concrete state with
registry containing sessions 0 and 1, origin 0, recipient 1. -/
theorem C2_send_failure_amended_witness :
    1 ∈ (Session.on_accept (Session.on_accept initState 0 false) 1 false).registry ∧
    (1 : Nat) ≠ 0 ∧
    (broadcast (Session.on_accept (Session.on_accept initState 0 false) 1 false) 0
        "hi").outbox 1
      = (Session.on_accept (Session.on_accept initState 0 false) 1 false).outbox 1
          ++ ["hi"] := by
  refine ⟨by decide, by decide, ?_⟩
  exact (C2_send_failure_amended
    (Session.on_accept (Session.on_accept initState 0 false) 1 false) 0 1 "hi"
    (by decide) (by decide)).1

/-- C3: during a broadcast, a write of the message is initiated on a
session's stream exactly when that session is in `sessions_` at fan-out time
and is not the originator; the originator's own outbox is never extended. -/
theorem C3_broadcast_recipients (st : ServerState) (origin : Nat) (out : String)
    (sid : Nat) :
    ((broadcast st origin out).outbox sid = st.outbox sid ++ [out]
      ↔ sid ∈ st.registry ∧ sid ≠ origin) ∧
    (broadcast st origin out).outbox origin = st.outbox origin := by
  constructor
  · constructor
    · intro h
      by_contra hcond
      have helse : (broadcast st origin out).outbox sid = st.outbox sid := by
        show (if sid ∈ st.registry ∧ sid ≠ origin then st.outbox sid ++ [out]
            else st.outbox sid) = st.outbox sid
        rw [if_neg hcond]
      rw [helse] at h
      have := congrArg List.length h
      simp at this
    · intro h
      exact broadcast_outbox_recipient out h.1 h.2
  · show (if origin ∈ st.registry ∧ origin ≠ origin then st.outbox origin ++ [out]
        else st.outbox origin) = st.outbox origin
    simp

/-- C4 (counterexample): with sessions 0, 1, 2 and originator 0, the code's
broadcast trace initiates its sends while `sessions_mutex_` is held and takes
no snapshot copy, so the claim that the delivery loop runs without holding the
membership lock is false; the spec's own copy-then-release trace, by contrast,
does satisfy that property, and the two traces differ. -/
theorem C4_lock_free_delivery_counterexample :
    sendsLockFree (broadcastEvents [0, 1, 2] 0) false = false ∧
    sendsLockFree (broadcastEventsSpec [0, 1, 2] 0) false = true ∧
    broadcastEvents [0, 1, 2] 0 ≠ broadcastEventsSpec [0, 1, 2] 0 ∧
    LockEv.snapshotCopy ∉ broadcastEvents [0, 1, 2] 0 := by
  decide

/-- C4 (amended): for every membership list and originator, the broadcast
section acquires `sessions_mutex_` first, initiates every send while the
mutex is held, releases it only after the loop, and never copies a snapshot:
joins and leaves are excluded for the whole duration of send initiation. -/
theorem C4_broadcast_under_lock_amended (sessions : List Nat) (origin : Nat) :
    sendsUnderLock (broadcastEvents sessions origin) false = true ∧
    LockEv.snapshotCopy ∉ broadcastEvents sessions origin := by
  constructor
  · simpa [broadcastEvents, sendsUnderLock] using
      sendsUnderLock_map_sendInit (sessions.filter (fun s => s ≠ origin))
  · simp [broadcastEvents]

/-- C5: per-peer FIFO at the level of write initiation.  If session A's
buffer is empty and peer B is registered and distinct from A, then after A
receives any sequence of frames (each fully processed before the next read is
armed), the writes initiated on B's stream are exactly the previous ones
followed by A's frames in their arrival order — in particular, for frames
M1 then M2, the write of M1 is initiated on B's stream before that of M2. -/
theorem C5_per_peer_fifo (st : ServerState) (A B : Nat) (frames : List String)
    (hB : B ∈ st.registry) (hne : B ≠ A) (hbuf : st.buffers A = "") :
    (processFrames st A frames).outbox B = st.outbox B ++ frames := by
  exact processFrames_outbox frames A B hne st hB hbuf

/-- C5 witness: sessions 0 and 1 join; session 0 receives "M1" then "M2";
both writes are initiated on session 1's stream in that order. -/
theorem C5_per_peer_fifo_witness :
    1 ∈ (Session.on_accept (Session.on_accept initState 0 false) 1 false).registry ∧
    (1 : Nat) ≠ 0 ∧
    (Session.on_accept (Session.on_accept initState 0 false) 1 false).buffers 0 = "" ∧
    (processFrames (Session.on_accept (Session.on_accept initState 0 false) 1 false) 0
        ["M1", "M2"]).outbox 1
      = (Session.on_accept (Session.on_accept initState 0 false) 1 false).outbox 1
          ++ ["M1", "M2"] := by
  refine ⟨by decide, by decide, rfl, ?_⟩
  exact C5_per_peer_fifo
    (Session.on_accept (Session.on_accept initState 0 false) 1 false) 0 1 ["M1", "M2"]
    (by decide) (by decide) rfl

/-- C6: when the WebSocket handshake fails, `Session::on_accept` only prints
`Accept error` and returns: the session is never inserted into `sessions_`,
no read is armed for it, and no buffer, outbox, handshake flag, or broadcast
record of any session changes. -/
theorem C6_handshake_failure_no_side_effects (st : ServerState) (sid : Nat) :
    (Session.on_accept st sid true).registry = st.registry ∧
    (Session.on_accept st sid true).buffers = st.buffers ∧
    (Session.on_accept st sid true).outbox = st.outbox ∧
    (Session.on_accept st sid true).handshaken = st.handshaken ∧
    (Session.on_accept st sid true).readArmed = st.readArmed ∧
    (Session.on_accept st sid true).broadcastLog = st.broadcastLog ∧
    (Session.on_accept st sid true).errLog = st.errLog ++ ["Accept error"] := by
  exact ⟨rfl, rfl, rfl, rfl, rfl, rfl, rfl⟩

/-- C7: `sessions_` is a `std::set`, so removal of an absent session is a
no-op, removing twice equals removing once (same set and same size), and
inserting an already-present session is a no-op. -/
theorem C7_join_leave_idempotent (r : Finset Nat) (s : Nat) :
    (s ∉ r → registryLeave r s = r) ∧
    registryLeave (registryLeave r s) s = registryLeave r s ∧
    (registryLeave (registryLeave r s) s).card = (registryLeave r s).card ∧
    (s ∈ r → registryJoin r s = r) := by
  refine ⟨fun h => Finset.erase_eq_of_not_mem h, Finset.erase_idem, ?_,
    fun h => Finset.insert_eq_self.mpr h⟩
  rw [show registryLeave (registryLeave r s) s = registryLeave r s from Finset.erase_idem]

/-- C7 witness: leaving with the absent session 2 keeps the set, and joining
with the present session 0 keeps the set. -/
theorem C7_join_leave_idempotent_witness :
    (2 ∉ ({0, 1} : Finset Nat) ∧ registryLeave ({0, 1} : Finset Nat) 2 = {0, 1}) ∧
    (0 ∈ ({0, 1} : Finset Nat) ∧ registryJoin ({0, 1} : Finset Nat) 0 = {0, 1}) := by
  refine ⟨⟨by decide, ?_⟩, ⟨by decide, ?_⟩⟩
  · exact (C7_join_leave_idempotent ({0, 1} : Finset Nat) 2).1 (by decide)
  · exact (C7_join_leave_idempotent ({0, 1} : Finset Nat) 0).2.2.2 (by decide)

/-- C8: the accept completion handler re-arms the next `async_accept` in both
of its branches: a failed accept appends `Accept error` to the log and starts
no session, a successful one starts a session; in either case
`accept_connection()` is called again, so an accept is pending after every
completed accept operation. -/
theorem C8_listener_rearms (st : ListenerState) (ec : Bool) :
    (onAcceptComplete st ec).acceptPending = true ∧
    (onAcceptComplete st true).errLog = st.errLog ++ ["Accept error"] ∧
    (onAcceptComplete st true).sessionsStarted = st.sessionsStarted ∧
    (onAcceptComplete st false).sessionsStarted = st.sessionsStarted + 1 ∧
    (onAcceptComplete st false).errLog = st.errLog := by
  cases ec <;> exact ⟨rfl, rfl, rfl, rfl, rfl⟩

/-- C9 (counterexample): the server's `main` ignores its input entirely.
Invoked with the argument "9000", the Listener is still bound to the literal
built-in port 8080, so no listening port is parsed from the input. -/
theorem C9_fixed_port_counterexample :
    serverListenPort ["websocket_server", "9000"] = 8080 ∧ (8080 : Nat) ≠ 9000 := by
  decide

/-- C9 (amended): the server's entry point uses the fixed built-in port 8080
for every input; only the client's entry point parses its input, taking host
and port from exactly two command-line arguments and rejecting any other
argument count. -/
theorem C9_entry_points_amended (argv : List String) (prog host port : String)
    (hlen : argv.length ≠ 3) :
    serverListenPort argv = 8080 ∧
    clientParseArgs [prog, host, port] = some (host, port) ∧
    clientParseArgs argv = none := by
  refine ⟨rfl, rfl, ?_⟩
  match argv with
  | [] => rfl
  | [_] => rfl
  | [_, _] => rfl
  | [_, _, _] => exact absurd rfl hlen
  | _ :: _ :: _ :: _ :: _ => rfl

/-- C9 witness: the amended theorem at the concrete server invocation with
argument "9000" and the concrete client invocation with host 127.0.0.1 and
port 8080. -/
theorem C9_entry_points_amended_witness :
    (["websocket_server", "9000"] : List String).length ≠ 3 ∧
    serverListenPort ["websocket_server", "9000"] = 8080 ∧
    clientParseArgs ["websocket_client", "127.0.0.1", "8080"]
      = some ("127.0.0.1", "8080") ∧
    clientParseArgs ["websocket_server", "9000"] = none := by
  refine ⟨by decide, ?_⟩
  exact C9_entry_points_amended ["websocket_server", "9000"]
    "websocket_client" "127.0.0.1" "8080" (by decide)

/-- C10: if a session's buffer is empty, then after any sequence of received
frames — each one appended to the buffer by `async_read`, converted whole to
the broadcast string, and fully consumed before `read_message()` re-arms the
next read — the strings handed to broadcast are exactly the frame payloads in
order (never a concatenation with an earlier frame), and the buffer is empty
again afterwards. -/
theorem C10_exact_payload_per_broadcast (st : ServerState) (sid : Nat)
    (frames : List String) (hbuf : st.buffers sid = "") :
    (processFrames st sid frames).broadcastLog
        = st.broadcastLog ++ frames.map (fun p => (sid, p)) ∧
    (processFrames st sid frames).buffers sid = "" := by
  exact processFrames_log frames sid st hbuf

/-- C10 witness: from the initial state, after session 0 joins and receives
the frames "ab" and "c", the broadcast strings are exactly "ab" then "c". -/
theorem C10_exact_payload_per_broadcast_witness :
    (Session.on_accept initState 0 false).buffers 0 = "" ∧
    (processFrames (Session.on_accept initState 0 false) 0 ["ab", "c"]).broadcastLog
      = (Session.on_accept initState 0 false).broadcastLog
          ++ [("ab" : String), ("c" : String)].map (fun p => ((0 : Nat), p)) ∧
    (processFrames (Session.on_accept initState 0 false) 0 ["ab", "c"]).buffers 0
      = "" := by
  refine ⟨rfl, ?_, ?_⟩
  · exact (C10_exact_payload_per_broadcast (Session.on_accept initState 0 false) 0
      ["ab", "c"] rfl).1
  · exact (C10_exact_payload_per_broadcast (Session.on_accept initState 0 false) 0
      ["ab", "c"] rfl).2
